import Mathlib

/-!
Verification of the retrieval-augmented answer pipeline
(`rag/query_engine.py`, `rag/retriever.py`, `api/routes.py`).

The Python code is embedded shallowly:

* collaborators (the Language Model Gateway `llm_service.generate_text` and
  the Passage Index `retriever.retrieve`) are functions returning
  `Except Err _`, an `Except.error` standing for a raised Python exception;
* every operation additionally returns the list of collaborator calls it
  made, in order, so that call-count and call-content properties are
  provable;
* Python string built-ins used by the code (`str.upper`, `str.strip`,
  substring containment via `in`, `str.join`, `str.format` placeholder
  substitution) are re-implemented on `List Char` so that all definitions
  reduce inside the kernel;
* the float temperatures 0.1 / 0.2 / 0.7 are carried exactly as integer
  tenths (1 / 2 / 7); `none` means the keyword argument was omitted at the
  call site, so the service default applies.
-/

/-- `s.upper()` for the ASCII prompt vocabulary used by the code. -/
def strUpper (s : String) : String := ⟨s.data.map Char.toUpper⟩

/-- `s.strip()`: drop leading and trailing whitespace. -/
def strTrim (s : String) : String :=
  ⟨((s.data.dropWhile Char.isWhitespace).reverse.dropWhile Char.isWhitespace).reverse⟩

/-- Whether the first list is an initial segment of the second. -/
def listStartsWith : List Char → List Char → Bool
  | [], _ => true
  | _ :: _, [] => false
  | a :: as, b :: bs => a == b && listStartsWith as bs

/-- Whether `needle` occurs contiguously inside the second list. -/
def listContainsTok (needle : List Char) : List Char → Bool
  | [] => listStartsWith needle []
  | h :: t => listStartsWith needle (h :: t) || listContainsTok needle t

/-- Python's `needle in haystack` on strings. -/
def strContains (haystack needle : String) : Bool :=
  listContainsTok needle.data haystack.data

/-- Replace every occurrence of `pat` (non-overlapping, left to right) by
`rep`; the fuel argument makes the recursion structural. -/
def replaceList (pat rep : List Char) : Nat → List Char → List Char
  | _, [] => []
  | 0, l => l
  | fuel + 1, h :: t =>
    if pat ≠ [] ∧ listStartsWith pat (h :: t) = true then
      rep ++ replaceList pat rep fuel (List.drop (pat.length - 1) t)
    else h :: replaceList pat rep fuel t

/-- Python's `s.replace(pat, rep)` (for the non-empty patterns the code uses). -/
def strReplace (s pat rep : String) : String :=
  ⟨replaceList pat.data rep.data s.data.length s.data⟩

/-- Python's `sep.join(parts)`. -/
def joinSep (sep : String) : List String → String
  | [] => ""
  | [x] => x
  | x :: y :: ys => x ++ sep ++ joinSep sep (y :: ys)

/-- `template.format(context=..., question=...)` on the prompt templates of
the code, whose only placeholders are `{context}` and `{question}`.
(Modelled as two successive replacements; the code never feeds a context
that itself contains a placeholder.) -/
def pyFormat (template context question : String) : String :=
  strReplace (strReplace template "{context}" context) "{question}" question

/-- `langchain.docstore.document.Document`: the one attribute the pipeline
reads is `page_content`. -/
structure Document where
  page_content : String
deriving DecidableEq

/-- One `generate_text` call: the exact arguments the call site passes.
`temperature_tenths` carries the float temperature as exact tenths;
`none` means the keyword argument was omitted (service default). -/
structure LLMRequest where
  system_prompt : String
  user_prompt : String
  temperature_tenths : Option Nat
  max_tokens : Option Nat
deriving DecidableEq

/-- Python exceptions that cross the boundaries modelled here. -/
inductive Err where
  | valueError (msg : String)
  | badRequest (msg : String)
  | providerFailure (msg : String)
deriving DecidableEq

/-- `str(e)` of an exception: its message. -/
def Err.text : Err → String
  | .valueError m => m
  | .badRequest m => m
  | .providerFailure m => m

/-- The Language Model Gateway: `llm_service.generate_text`. -/
abbrev LLMService := LLMRequest → Except Err String

/-- The Passage Index as the engine sees it: `retriever.retrieve` at the
default `k` the engine uses. -/
abbrev Retriever := String → Except Err (List Document)

/-- One collaborator call, recorded in order of occurrence. -/
inductive CallEvent where
  | retrieve (query : String)
  | generate (req : LLMRequest)
deriving DecidableEq

/-- `VectorStoreRetriever.retrieve`: wraps any `similarity_search` failure
in a `ValueError` and re-raises it (it does not absorb the failure). -/
def VectorStoreRetriever.retrieve (similarity_search : String → Nat → Except Err (List Document))
    (query : String) (k : Nat) : Except Err (List Document) :=
  match similarity_search query k with
  | Except.ok documents => Except.ok documents
  | Except.error e => Except.error (Err.valueError ("Failed to retrieve documents: " ++ e.text))

/-- The engine after `__init__`: its two collaborators and the (already
defaulted) system prompt template. -/
structure RAGQueryEngine where
  retriever : Retriever
  llm_service : LLMService
  system_prompt_template : String

/-- The default system prompt template of `RAGQueryEngine.__init__`. -/
def RAGQueryEngine.default_system_prompt_template : String :=
  "You are a helpful assistant that provides informative answers about all topics, with special "
  ++ "expertise on NovaTech Dynamics' security policies. Always give a helpful response based on your "
  ++ "general knowledge. When information from NovaTech's security documents is relevant, incorporate "
  ++ "and highlight that specific information to enhance your answer.\n\n"
  ++ "If the provided document extracts contain relevant information, integrate it into your response "
  ++ "and clearly indicate where you're referencing NovaTech's specific policies by using phrases like "
  ++ "'According to NovaTech's security policy...' or 'NovaTech's documents specify that...'\n\n"
  ++ "Document information (if relevant):\n{context}\n\n"
  ++ "Question: {question}\n"
  ++ "Answer:"

/-- `RAGQueryEngine.__init__`: `system_prompt_template or (default)` —
Python's `or` also replaces an empty template by the default. -/
def RAGQueryEngine.init (retriever : Retriever) (llm_service : LLMService)
    (system_prompt_template : Option String) : RAGQueryEngine :=
  { retriever := retriever
    llm_service := llm_service
    system_prompt_template :=
      match system_prompt_template with
      | some t => if t = "" then RAGQueryEngine.default_system_prompt_template else t
      | none => RAGQueryEngine.default_system_prompt_template }

/-- `RAGQueryEngine.format_documents`. -/
def RAGQueryEngine.format_documents (documents : List Document) : String :=
  if documents.isEmpty then "No relevant documents found."
  else
    joinSep "\n\n" (documents.enum.map fun p =>
      "Extract " ++ toString (p.1 + 1) ++ ":\n" ++ strTrim p.2.page_content)

/-- Decision parsing of `check_relevance` (line 125):
`"RELEVANT" in response.upper() and "NOT_RELEVANT" not in response.upper()`. -/
def RAGQueryEngine.relevance_decision (response : String) : Bool :=
  strContains (strUpper response) "RELEVANT" && !(strContains (strUpper response) "NOT_RELEVANT")

/-- Decision parsing of `assess_document_relevance` (line 188):
`"ENHANCE" in analysis.upper() and "NO_ENHANCEMENT" not in analysis.upper()`. -/
def RAGQueryEngine.enhance_decision (analysis : String) : Bool :=
  strContains (strUpper analysis) "ENHANCE" && !(strContains (strUpper analysis) "NO_ENHANCEMENT")

/-- The judge prompt of `check_relevance`. Note line 109 of the source is a
plain string, not an f-string, so the prompt carries the literal text
`\x7bcontext\x7d` and the formatted documents never reach it. -/
def RAGQueryEngine.check_relevance_prompt (query_text : String) : String :=
  "Your task is to determine if the retrieved documents contain information that directly answers "
  ++ "a question about NovaTech Dynamics' security policies, procedures, or practices. "
  ++ "\n\n"
  ++ "Examples of RELEVANT queries (these would be relevant to security policy documents):\n"
  ++ "- What is NovaTech's password policy?\n"
  ++ "- How does NovaTech protect confidential data?\n"
  ++ "- What happens during employee termination at NovaTech?\n"
  ++ "- What are NovaTech's backup procedures?\n"
  ++ "\n"
  ++ "Examples of NOT_RELEVANT queries (these would NOT be relevant to security policy documents):\n"
  ++ "- Where is Poland located?\n"
  ++ "- What is the capital of France?\n"
  ++ "- How do I cook pasta?\n"
  ++ "- Who won the World Cup in 2022?\n"
  ++ "- What is a transformer in machine learning?\n"
  ++ "\n\n"
  ++ "Query: " ++ query_text ++ "\n\n"
  ++ "Retrieved documents:\n{context}\n\n"
  ++ "First, analyze whether the query is asking specifically about NovaTech Dynamics' security policies, "
  ++ "procedures, or practices. Then check if the retrieved documents contain information that directly "
  ++ "addresses this query.\n\n"
  ++ "Respond with ONLY ONE WORD: either 'RELEVANT' or 'NOT_RELEVANT'."

/-- The `generate_text` call of `check_relevance` (temperature 0.1,
`max_tokens` 10). -/
def RAGQueryEngine.check_relevance_request (query_text : String) : LLMRequest :=
  { system_prompt := RAGQueryEngine.check_relevance_prompt query_text
    user_prompt := "Determine RELEVANT or NOT_RELEVANT based on the criteria above."
    temperature_tenths := some 1
    max_tokens := some 10 }

/-- `RAGQueryEngine.check_relevance`: the whole body sits in a `try` whose
handler returns `False`. (The `context` the source computes on line 88 is
unused: the prompt line that names it is not an f-string.) -/
def RAGQueryEngine.check_relevance (llm : LLMService) (query_text : String)
    (retrieved_docs : List Document) : Bool × List CallEvent :=
  let _ := RAGQueryEngine.format_documents retrieved_docs
  let req := RAGQueryEngine.check_relevance_request query_text
  match llm req with
  | Except.ok response => (RAGQueryEngine.relevance_decision response, [CallEvent.generate req])
  | Except.error _ => (false, [CallEvent.generate req])

/-- The part of the judge prompt of `assess_document_relevance` before the
formatted documents. -/
def RAGQueryEngine.assess_prompt_head (query_text : String) : String :=
  "Your task is to determine if the retrieved documents contain information that would meaningfully "
  ++ "enhance a response about NovaTech Dynamics' security policies.\n\n"
  ++ "SECURITY POLICY TOPICS (examples where documents WOULD enhance the response):\n"
  ++ "- Password requirements and management\n"
  ++ "- Data classification systems\n"
  ++ "- Access control procedures\n"
  ++ "- Security monitoring\n"
  ++ "- Incident response\n"
  ++ "- Employee termination processes\n"
  ++ "- Backup procedures\n"
  ++ "- Device security\n"
  ++ "- Physical security measures\n"
  ++ "- Security questions\n"
  ++ "- Security roles and contacts\n\n"
  ++ "NON-POLICY TOPICS (examples where documents would NOT enhance the response):\n"
  ++ "- General geography or locations\n"
  ++ "- General technology concepts (e.g., what are transformers)\n"
  ++ "- Topics unrelated to security\n"
  ++ "- General knowledge questions\n"
  ++ "- Questions about other companies\n\n"
  ++ "Query: " ++ query_text ++ "\n\n"
  ++ "Document Extracts:\n"

/-- The part of the judge prompt of `assess_document_relevance` after the
formatted documents. -/
def RAGQueryEngine.assess_prompt_tail : String :=
  "\n\n"
  ++ "First, determine if the query is asking about NovaTech's security policies or practices. "
  ++ "Second, examine if the document extracts contain specific, relevant information that addresses the query. "
  ++ "Third, decide if incorporating this document information would make the response more accurate and helpful.\n\n"
  ++ "Respond with one of these options:\n"
  ++ "ENHANCE - If the documents contain relevant information that would improve the response to this security policy question\n"
  ++ "NO_ENHANCEMENT - If the documents don't contain relevant information or if the query isn't about security policies"

/-- The judge prompt of `assess_document_relevance` (lines 143-177). -/
def RAGQueryEngine.assess_prompt (query_text docs_text : String) : String :=
  RAGQueryEngine.assess_prompt_head query_text ++ (docs_text ++ RAGQueryEngine.assess_prompt_tail)

/-- The `generate_text` call of `assess_document_relevance` (temperature 0.2,
`max_tokens` 50). -/
def RAGQueryEngine.assess_request (query_text : String) (retrieved_docs : List Document) : LLMRequest :=
  { system_prompt :=
      RAGQueryEngine.assess_prompt query_text (RAGQueryEngine.format_documents retrieved_docs)
    user_prompt := "Analyze whether these documents would enhance a response about NovaTech's security policies."
    temperature_tenths := some 2
    max_tokens := some 50 }

/-- `RAGQueryEngine.assess_document_relevance`. Unlike `check_relevance`
its body is not wrapped in a `try`: a raising gateway call propagates as
`Except.error`. -/
def RAGQueryEngine.assess_document_relevance (llm : LLMService) (query_text : String)
    (retrieved_docs : List Document) : Except Err (Bool × List Document) × List CallEvent :=
  if retrieved_docs.isEmpty then (Except.ok (false, []), [])
  else
    let req := RAGQueryEngine.assess_request query_text retrieved_docs
    match llm req with
    | Except.ok analysis =>
        (Except.ok (RAGQueryEngine.enhance_decision analysis, retrieved_docs),
         [CallEvent.generate req])
    | Except.error e => (Except.error e, [CallEvent.generate req])

/-- The sentinel context of `query` (line 217). -/
def RAGQueryEngine.sentinel_context : String :=
  "No specific information about this topic was found in NovaTech's security policy documents."

/-- Lines 213-218 of `query`: the context fed to the prompt template. -/
def RAGQueryEngine.prepare_context (can_enhance : Bool) (relevant_docs : List Document) : String :=
  if can_enhance && !relevant_docs.isEmpty then RAGQueryEngine.format_documents relevant_docs
  else RAGQueryEngine.sentinel_context

/-- The primary `generate_text` call of `query` (temperature 0.7,
`max_tokens` omitted). -/
def RAGQueryEngine.primary_request (template context query_text : String) : LLMRequest :=
  { system_prompt := pyFormat template context query_text
    user_prompt := query_text
    temperature_tenths := some 7
    max_tokens := none }

/-- The fallback `generate_text` call of `query`'s exception handler
(no temperature, no `max_tokens`, no context). -/
def RAGQueryEngine.fallback_request (query_text : String) : LLMRequest :=
  { system_prompt := "You are a helpful assistant. Please answer the following question based on your general knowledge."
    user_prompt := query_text
    temperature_tenths := none
    max_tokens := none }

/-- The `try` block of `RAGQueryEngine.query` (lines 203-234): retrieval,
assessment, context preparation and the primary generation call; an
`Except.error` is an exception about to reach the handler. -/
def RAGQueryEngine.query_body (e : RAGQueryEngine) (query_text : String) :
    Except Err String × List CallEvent :=
  match e.retriever query_text with
  | Except.error err => (Except.error err, [CallEvent.retrieve query_text])
  | Except.ok retrieved_docs =>
    match RAGQueryEngine.assess_document_relevance e.llm_service query_text retrieved_docs with
    | (Except.error err, calls) => (Except.error err, CallEvent.retrieve query_text :: calls)
    | (Except.ok (can_enhance, relevant_docs), calls) =>
      let context := RAGQueryEngine.prepare_context can_enhance relevant_docs
      let req := RAGQueryEngine.primary_request e.system_prompt_template context query_text
      (e.llm_service req,
       CallEvent.retrieve query_text :: (calls ++ [CallEvent.generate req]))

/-- `RAGQueryEngine.query`: the body above, plus the `except Exception`
handler that answers every failure with one context-free fallback call whose
own failure propagates. -/
def RAGQueryEngine.query (e : RAGQueryEngine) (query_text : String) :
    Except Err String × List CallEvent :=
  match RAGQueryEngine.query_body e query_text with
  | (Except.ok response, calls) => (Except.ok response, calls)
  | (Except.error _, calls) =>
    let fb := RAGQueryEngine.fallback_request query_text
    (e.llm_service fb, calls ++ [CallEvent.generate fb])

/-- The `/query` route handler `process_query` (`api/routes.py` lines 45-65):
rejects a falsy — that is, empty — query string before touching the engine,
and wraps an engine exception in a `BadRequestError`. -/
def process_query (engine : RAGQueryEngine) (q : String) : Except Err String × List CallEvent :=
  if q.isEmpty then (Except.error (Err.badRequest "No query provided"), [])
  else
    match RAGQueryEngine.query engine q with
    | (Except.ok resp, calls) => (Except.ok resp, calls)
    | (Except.error e, calls) =>
      (Except.error (Err.badRequest ("Error processing query: " ++ e.text)), calls)

/-- Written from the spec's words alone, for comparison with
`format_documents` (C7): the passages in retrieval order, each labelled with
a 1-based ordinal, blank-line separated. The spec's formatting rule says
nothing about altering the passage text, so each passage's `page_content`
is taken as-is. -/
def specLabeledExtracts : Nat → List Document → List String
  | _, [] => []
  | n, d :: ds =>
    ("Extract " ++ toString n ++ ":\n" ++ d.page_content) :: specLabeledExtracts (n + 1) ds

/-- The spec's context-formatting rule as stated in §4.2, taken literally. -/
def specContextFormat (docs : List Document) : String :=
  joinSep "\n\n" (specLabeledExtracts 1 docs)

/-- The amended formatting rule: as the spec's, except that each passage's
text is first stripped of leading and trailing whitespace (the code applies
`strip()` to every `page_content`). -/
def amendedLabeledExtracts : Nat → List Document → List String
  | _, [] => []
  | n, d :: ds =>
    ("Extract " ++ toString n ++ ":\n" ++ strTrim d.page_content) :: amendedLabeledExtracts (n + 1) ds

/-- The amended context-formatting rule: spec rule plus per-passage strip. -/
def amendedContextFormat (docs : List Document) : String :=
  joinSep "\n\n" (amendedLabeledExtracts 1 docs)

/- Concrete inputs for counterexamples and witnesses. -/

/-- A concrete retrieved passage. -/
def docC : Document := ⟨"All passwords must be at least 12 characters long."⟩

/-- A second concrete retrieved passage. -/
def docC2 : Document := ⟨" Backups run nightly. "⟩

/-- A concrete gateway failure. -/
def errC : Err := Err.providerFailure "model call failed"

/-- A gateway whose every call raises. -/
def llmFailC : LLMService := fun _ => Except.error errC

/-- A gateway whose every call succeeds with a fixed answer. -/
def llmAnsC : LLMService := fun _ => Except.ok "General answer."

/-- A gateway that answers the assessment call (temperature 0.2) with
ENHANCE, raises on the primary call (temperature 0.7) and succeeds on the
fallback call. -/
def llmPrimaryFailC : LLMService := fun req =>
  if req.temperature_tenths = some 2 then Except.ok "ENHANCE"
  else if req.temperature_tenths = some 7 then Except.error errC
  else Except.ok "FB"

/-- A gateway that answers the assessment call with ENHANCE and raises on
everything else. -/
def llmBothFailC : LLMService := fun req =>
  if req.temperature_tenths = some 2 then Except.ok "ENHANCE"
  else Except.error errC

/-- A Passage Index whose retrieval always raises. -/
def retrFailC : Retriever := fun _ =>
  Except.error (Err.valueError "Failed to retrieve documents: boom")

/-- A Passage Index that always returns zero passages. -/
def retrEmptyC : Retriever := fun _ => Except.ok []

/-- A Passage Index that always returns one passage. -/
def retrOneC : Retriever := fun _ => Except.ok [docC]

/-- Engine whose retrieval fails, with an always-answering gateway. -/
def engRetrFailC : RAGQueryEngine := RAGQueryEngine.init retrFailC llmAnsC none

/-- Engine whose retrieval returns zero passages, same gateway. -/
def engRetrEmptyC : RAGQueryEngine := RAGQueryEngine.init retrEmptyC llmAnsC none

/-- Engine for the composer-fallback witness. -/
def engPrimaryFailC : RAGQueryEngine := RAGQueryEngine.init retrOneC llmPrimaryFailC none

/-- Engine for the both-calls-fail witness. -/
def engBothFailC : RAGQueryEngine := RAGQueryEngine.init retrOneC llmBothFailC none

/- Helper lemmas (shared; none of these is a claim's theorem). -/

lemma listStartsWith_append (n t : List Char) : listStartsWith n (n ++ t) = true := by
  induction n with
  | nil => rfl
  | cons a as ih => simp [listStartsWith, ih]

lemma listContainsTok_of_startsWith (n l : List Char) (h : listStartsWith n l = true) :
    listContainsTok n l = true := by
  cases l with
  | nil => exact h
  | cons a t => simp [listContainsTok, h]

lemma listContainsTok_append_left (n l a : List Char)
    (h : listContainsTok n l = true) : listContainsTok n (a ++ l) = true := by
  induction a with
  | nil => simpa using h
  | cons x xs ih => simp [listContainsTok, ih]

lemma strContains_intro (s n : String) (a b : List Char)
    (h : s.data = a ++ (n.data ++ b)) : strContains s n = true := by
  unfold strContains
  rw [h]
  exact listContainsTok_append_left _ _ a
    (listContainsTok_of_startsWith _ _ (listStartsWith_append n.data b))

lemma assess_empty (llm : LLMService) (q : String) :
    RAGQueryEngine.assess_document_relevance llm q [] = (Except.ok (false, []), []) := rfl

lemma assess_cons_ok (llm : LLMService) (q : String) (d : Document) (ds : List Document)
    (a : String) (h : llm (RAGQueryEngine.assess_request q (d :: ds)) = Except.ok a) :
    RAGQueryEngine.assess_document_relevance llm q (d :: ds) =
      (Except.ok (RAGQueryEngine.enhance_decision a, d :: ds),
       [CallEvent.generate (RAGQueryEngine.assess_request q (d :: ds))]) := by
  simp [RAGQueryEngine.assess_document_relevance, h]

lemma assess_cons_err (llm : LLMService) (q : String) (d : Document) (ds : List Document)
    (e : Err) (h : llm (RAGQueryEngine.assess_request q (d :: ds)) = Except.error e) :
    RAGQueryEngine.assess_document_relevance llm q (d :: ds) =
      (Except.error e, [CallEvent.generate (RAGQueryEngine.assess_request q (d :: ds))]) := by
  simp [RAGQueryEngine.assess_document_relevance, h]

lemma assess_cons_trace (llm : LLMService) (q : String) (d : Document) (ds : List Document) :
    (RAGQueryEngine.assess_document_relevance llm q (d :: ds)).2 =
      [CallEvent.generate (RAGQueryEngine.assess_request q (d :: ds))] := by
  rcases h : llm (RAGQueryEngine.assess_request q (d :: ds)) with e | a
  · rw [assess_cons_err llm q d ds e h]
  · rw [assess_cons_ok llm q d ds a h]

/-- C3: the parsed verdict is `should_enhance = true` iff the judge text
contains the positive token (case-insensitively, as the code upper-cases the
text first) and does not contain the negative token; text consisting only of
the negative token — which contains the positive token as a substring — parses
to false, for both the ENHANCE and the RELEVANT vocabulary. -/
theorem verdict_parsing_correct (t : String) :
    (RAGQueryEngine.enhance_decision t = true ↔
      strContains (strUpper t) "ENHANCE" = true ∧
        strContains (strUpper t) "NO_ENHANCEMENT" = false)
    ∧ strContains "NO_ENHANCEMENT" "ENHANCE" = true
    ∧ RAGQueryEngine.enhance_decision "NO_ENHANCEMENT" = false
    ∧ strContains "NOT_RELEVANT" "RELEVANT" = true
    ∧ RAGQueryEngine.relevance_decision "NOT_RELEVANT" = false := by
  refine ⟨?_, by decide, by decide, by decide, by decide⟩
  simp [RAGQueryEngine.enhance_decision, Bool.and_eq_true, Bool.not_eq_true']

/-- C4: on an empty passage list the gate answers `should_enhance = false`
with no gateway call; on a non-empty list it makes exactly one gateway call
(the assessment request), whether that call succeeds or raises. -/
theorem relevance_gate_call_discipline (llm : LLMService) (q : String) (docs : List Document) :
    (docs = [] →
      RAGQueryEngine.assess_document_relevance llm q docs = (Except.ok (false, []), []))
    ∧ (docs ≠ [] →
      (RAGQueryEngine.assess_document_relevance llm q docs).2 =
        [CallEvent.generate (RAGQueryEngine.assess_request q docs)]) := by
  constructor
  · rintro rfl
    rfl
  · intro h
    cases docs with
    | nil => exact absurd rfl h
    | cons d ds => exact assess_cons_trace llm q d ds

/-- C4 witness: both conjuncts at concrete inputs. -/
theorem relevance_gate_call_discipline_witness :
    RAGQueryEngine.assess_document_relevance llmAnsC "Where is Poland located?" [] =
      (Except.ok (false, []), [])
    ∧ (RAGQueryEngine.assess_document_relevance llmAnsC "Where is Poland located?" [docC]).2 =
        [CallEvent.generate (RAGQueryEngine.assess_request "Where is Poland located?" [docC])] :=
  ⟨(relevance_gate_call_discipline llmAnsC "Where is Poland located?" []).1 rfl,
   (relevance_gate_call_discipline llmAnsC "Where is Poland located?" [docC]).2 (by decide)⟩

/-- C10: whenever the assessment returns normally, the passage list it
returns alongside the verdict is the input list itself — nothing is
filtered, reordered or dropped. -/
theorem gate_preserves_passage_list (llm : LLMService) (q : String) (docs : List Document)
    (b : Bool) (rdocs : List Document)
    (h : (RAGQueryEngine.assess_document_relevance llm q docs).1 = Except.ok (b, rdocs)) :
    rdocs = docs := by
  cases docs with
  | nil =>
    rw [assess_empty] at h
    simp only [Except.ok.injEq, Prod.mk.injEq] at h
    exact h.2.symm
  | cons d ds =>
    rcases hr : llm (RAGQueryEngine.assess_request q (d :: ds)) with e | a
    · rw [assess_cons_err llm q d ds e hr] at h
      exact absurd h (by simp)
    · rw [assess_cons_ok llm q d ds a hr] at h
      simp only [Except.ok.injEq, Prod.mk.injEq] at h
      exact h.2.symm

/-- C10 witness: at a concrete successful assessment the returned list is
the input list. -/
theorem gate_preserves_passage_list_witness : ([docC] : List Document) = [docC] :=
  gate_preserves_passage_list llmAnsC "What is the password policy?" [docC] false [docC] rfl

/-- C8: the judge prompt sent by the gate on a non-empty passage list
contains the formatted passage text (the output of `format_documents` on the
retrieved passages), and that prompt is the one gateway call the gate makes. -/
theorem judge_prompt_contains_passages (llm : LLMService) (q : String) (docs : List Document)
    (h : docs ≠ []) :
    strContains (RAGQueryEngine.assess_request q docs).system_prompt
      (RAGQueryEngine.format_documents docs) = true
    ∧ (RAGQueryEngine.assess_document_relevance llm q docs).2 =
        [CallEvent.generate (RAGQueryEngine.assess_request q docs)] := by
  constructor
  · exact strContains_intro _ _ (RAGQueryEngine.assess_prompt_head q).data
      RAGQueryEngine.assess_prompt_tail.data
      (by simp [RAGQueryEngine.assess_request, RAGQueryEngine.assess_prompt, String.data_append])
  · cases docs with
    | nil => exact absurd rfl h
    | cons d ds => exact assess_cons_trace llm q d ds

/-- C8 witness: the containment and the single recorded call at a concrete
question and passage. -/
theorem judge_prompt_contains_passages_witness :
    strContains (RAGQueryEngine.assess_request "What is the password policy?" [docC]).system_prompt
      (RAGQueryEngine.format_documents [docC]) = true
    ∧ (RAGQueryEngine.assess_document_relevance llmAnsC "What is the password policy?" [docC]).2 =
        [CallEvent.generate (RAGQueryEngine.assess_request "What is the password policy?" [docC])] :=
  judge_prompt_contains_passages llmAnsC "What is the password policy?" [docC] (by decide)

lemma labeled_extracts_eq (ds : List Document) : ∀ n : Nat,
    (List.enumFrom n ds).map
      (fun p => "Extract " ++ toString (p.1 + 1) ++ ":\n" ++ strTrim p.2.page_content)
    = amendedLabeledExtracts (n + 1) ds := by
  induction ds with
  | nil => intro n; rfl
  | cons d ds ih => intro n; simp [List.enumFrom, amendedLabeledExtracts, ih]

lemma format_documents_eq_amended (docs : List Document) (h : docs ≠ []) :
    RAGQueryEngine.format_documents docs = amendedContextFormat docs := by
  cases docs with
  | nil => exact absurd rfl h
  | cons d ds =>
    have h1 : RAGQueryEngine.format_documents (d :: ds) =
        joinSep "\n\n" (((d :: ds).enum).map
          (fun p => "Extract " ++ toString (p.1 + 1) ++ ":\n" ++ strTrim p.2.page_content)) := rfl
    rw [h1, amendedContextFormat, List.enum, labeled_extracts_eq]

lemma joinSep_data_cons (sep x : String) (xs : List String) :
    ∃ t, (joinSep sep (x :: xs)).data = x.data ++ t := by
  cases xs with
  | nil => exact ⟨[], by simp [joinSep]⟩
  | cons y ys =>
    exact ⟨sep.data ++ (joinSep sep (y :: ys)).data,
      by simp [joinSep, String.data_append]⟩

lemma format_documents_cons_ne_empty (d : Document) (ds : List Document) :
    RAGQueryEngine.format_documents (d :: ds) ≠ "" := by
  have hform : RAGQueryEngine.format_documents (d :: ds) =
      joinSep "\n\n" (("Extract " ++ toString (0 + 1) ++ ":\n" ++ strTrim d.page_content) ::
        (List.enumFrom 1 ds).map
          (fun p => "Extract " ++ toString (p.1 + 1) ++ ":\n" ++ strTrim p.2.page_content)) := rfl
  obtain ⟨t, ht⟩ := joinSep_data_cons "\n\n"
    ("Extract " ++ toString (0 + 1) ++ ":\n" ++ strTrim d.page_content)
    ((List.enumFrom 1 ds).map
      (fun p => "Extract " ++ toString (p.1 + 1) ++ ":\n" ++ strTrim p.2.page_content))
  intro hemp
  have hdata := congrArg String.data hemp
  rw [hform, ht] at hdata
  have hE : ("Extract " : String).data = 'E' :: "xtract ".data := rfl
  have h0 : ("" : String).data = [] := rfl
  simp [String.data_append, hE, h0] at hdata

lemma prepare_context_ne_empty (b : Bool) (docs : List Document) :
    RAGQueryEngine.prepare_context b docs ≠ "" := by
  cases docs with
  | nil =>
    have h1 : RAGQueryEngine.prepare_context b [] = RAGQueryEngine.sentinel_context := by
      simp [RAGQueryEngine.prepare_context]
    rw [h1]; decide
  | cons d ds =>
    cases b with
    | false =>
      have h1 : RAGQueryEngine.prepare_context false (d :: ds) =
          RAGQueryEngine.sentinel_context := rfl
      rw [h1]; decide
    | true =>
      have h1 : RAGQueryEngine.prepare_context true (d :: ds) =
          RAGQueryEngine.format_documents (d :: ds) := rfl
      rw [h1]
      exact format_documents_cons_ne_empty d ds

lemma prepare_context_sentinel (b : Bool) (docs : List Document)
    (h : b = false ∨ docs = []) :
    RAGQueryEngine.prepare_context b docs = RAGQueryEngine.sentinel_context := by
  rcases h with rfl | rfl
  · rfl
  · simp [RAGQueryEngine.prepare_context]

/-- C7 counterexample: for a whitespace-padded passage the code's context
carries the stripped text, not the passage concatenated as-is, so
`format_documents` disagrees with the spec's literal formatting rule
(`specContextFormat`) at a concrete passage list. -/
theorem context_formatting_untrimmed_cex :
    RAGQueryEngine.format_documents [docC2] = "Extract 1:\nBackups run nightly."
    ∧ specContextFormat [docC2] = "Extract 1:\n Backups run nightly. "
    ∧ RAGQueryEngine.format_documents [docC2] ≠ specContextFormat [docC2] :=
  ⟨by decide, by decide, by decide⟩

/-- C7 amended: the context substituted into the prompt template is the
passages in retrieval order, each passage's text first stripped of leading
and trailing whitespace, under 1-based Extract labels separated by a blank
line (`amendedContextFormat`); and whenever no passages qualify — verdict
false or empty list — the context is the fixed sentinel, so the context
slot is never the empty string. -/
theorem context_formatting_correct (b : Bool) (docs : List Document) :
    (docs ≠ [] → RAGQueryEngine.format_documents docs = amendedContextFormat docs)
    ∧ RAGQueryEngine.prepare_context b docs ≠ ""
    ∧ (b = false ∨ docs = [] →
        RAGQueryEngine.prepare_context b docs = RAGQueryEngine.sentinel_context) :=
  ⟨fun h => format_documents_eq_amended docs h,
   prepare_context_ne_empty b docs,
   fun h => prepare_context_sentinel b docs h⟩

/-- C7 amended witness: the amended formatting agreement on two concrete
passages — one whitespace-padded, exercising the strip — and the sentinel
on a rejected passage list. -/
theorem context_formatting_correct_witness :
    RAGQueryEngine.format_documents [docC, docC2] = amendedContextFormat [docC, docC2]
    ∧ RAGQueryEngine.prepare_context false [docC] = RAGQueryEngine.sentinel_context :=
  ⟨(context_formatting_correct true [docC, docC2]).1 (by decide),
   (context_formatting_correct false [docC]).2.2 (Or.inl rfl)⟩

lemma query_body_retr_err (eng : RAGQueryEngine) (q : String) (e : Err)
    (h : eng.retriever q = Except.error e) :
    RAGQueryEngine.query_body eng q = (Except.error e, [CallEvent.retrieve q]) := by
  unfold RAGQueryEngine.query_body
  rw [h]

lemma query_body_assess_err (eng : RAGQueryEngine) (q : String) (docs : List Document)
    (e : Err) (calls : List CallEvent)
    (hr : eng.retriever q = Except.ok docs)
    (ha : RAGQueryEngine.assess_document_relevance eng.llm_service q docs =
      (Except.error e, calls)) :
    RAGQueryEngine.query_body eng q = (Except.error e, CallEvent.retrieve q :: calls) := by
  unfold RAGQueryEngine.query_body
  simp only [hr, ha]

lemma query_body_assess_ok (eng : RAGQueryEngine) (q : String) (docs : List Document)
    (ce : Bool) (rd : List Document) (calls : List CallEvent)
    (hr : eng.retriever q = Except.ok docs)
    (ha : RAGQueryEngine.assess_document_relevance eng.llm_service q docs =
      (Except.ok (ce, rd), calls)) :
    RAGQueryEngine.query_body eng q =
      (eng.llm_service (RAGQueryEngine.primary_request eng.system_prompt_template
         (RAGQueryEngine.prepare_context ce rd) q),
       CallEvent.retrieve q :: (calls ++ [CallEvent.generate
         (RAGQueryEngine.primary_request eng.system_prompt_template
           (RAGQueryEngine.prepare_context ce rd) q)])) := by
  unfold RAGQueryEngine.query_body
  simp only [hr, ha]

lemma query_of_body_ok (eng : RAGQueryEngine) (q : String) (resp : String)
    (calls : List CallEvent)
    (h : RAGQueryEngine.query_body eng q = (Except.ok resp, calls)) :
    RAGQueryEngine.query eng q = (Except.ok resp, calls) := by
  unfold RAGQueryEngine.query
  rw [h]

lemma query_of_body_err (eng : RAGQueryEngine) (q : String) (e : Err)
    (calls : List CallEvent)
    (h : RAGQueryEngine.query_body eng q = (Except.error e, calls)) :
    RAGQueryEngine.query eng q =
      (eng.llm_service (RAGQueryEngine.fallback_request q),
       calls ++ [CallEvent.generate (RAGQueryEngine.fallback_request q)]) := by
  unfold RAGQueryEngine.query
  rw [h]

lemma query_trace_head (eng : RAGQueryEngine) (q : String) :
    (RAGQueryEngine.query eng q).2.head? = some (CallEvent.retrieve q) := by
  rcases hr : eng.retriever q with e | docs
  · rw [query_of_body_err eng q e [CallEvent.retrieve q] (query_body_retr_err eng q e hr)]
    rfl
  · rcases ha : RAGQueryEngine.assess_document_relevance eng.llm_service q docs with ⟨res, calls⟩
    rcases res with e2 | br
    · rw [query_of_body_err eng q e2 (CallEvent.retrieve q :: calls)
        (query_body_assess_err eng q docs e2 calls hr ha)]
      rfl
    · rcases br with ⟨ce, rd⟩
      have hb := query_body_assess_ok eng q docs ce rd calls hr ha
      rcases hp : eng.llm_service (RAGQueryEngine.primary_request eng.system_prompt_template
          (RAGQueryEngine.prepare_context ce rd) q) with e3 | resp
      · rw [hp] at hb
        rw [query_of_body_err eng q e3 _ hb]
        rfl
      · rw [hp] at hb
        rw [query_of_body_ok eng q resp _ hb]
        rfl

/-- C1 counterexample: with a gateway whose call raises, the assessment used
by the pipeline returns the raised error, not a `should_enhance = false`
verdict — the claim fails on `assess_document_relevance` as written. -/
theorem relevance_gate_propagates_error_cex :
    (RAGQueryEngine.assess_document_relevance llmFailC "What is the password policy?" [docC]).1 =
      Except.error errC
    ∧ (RAGQueryEngine.assess_document_relevance llmFailC "What is the password policy?" [docC]).1 ≠
        Except.ok (false, [docC]) := by
  refine ⟨rfl, ?_⟩
  intro h
  rw [show (RAGQueryEngine.assess_document_relevance llmFailC "What is the password policy?"
      [docC]).1 = Except.error errC from rfl] at h
  exact Except.noConfusion h

/-- C1 amended: when the gateway call of the assessment raises, the error
propagates out of `assess_document_relevance` to its caller (the pipeline's
catch-all absorbs it there); only the `check_relevance` helper — which the
pipeline does not call — fails closed with a `false` verdict. -/
theorem relevance_gate_error_handling_amended (llm : LLMService) (q : String)
    (docs : List Document) (e : Err) (hne : docs ≠ [])
    (h1 : llm (RAGQueryEngine.assess_request q docs) = Except.error e)
    (h2 : llm (RAGQueryEngine.check_relevance_request q) = Except.error e) :
    (RAGQueryEngine.assess_document_relevance llm q docs).1 = Except.error e
    ∧ (RAGQueryEngine.check_relevance llm q docs).1 = false := by
  constructor
  · cases docs with
    | nil => exact absurd rfl hne
    | cons d ds => rw [assess_cons_err llm q d ds e h1]
  · simp [RAGQueryEngine.check_relevance, h2]

/-- C1 amended witness: the propagation and the fail-closed helper at a
concrete failing gateway. -/
theorem relevance_gate_error_handling_amended_witness :
    (RAGQueryEngine.assess_document_relevance llmFailC "How do I cook pasta?" [docC2]).1 =
      Except.error errC
    ∧ (RAGQueryEngine.check_relevance llmFailC "How do I cook pasta?" [docC2]).1 = false :=
  relevance_gate_error_handling_amended llmFailC "How do I cook pasta?" [docC2] errC
    (by decide) rfl rfl

/-- C2 counterexample: on the whitespace-only question the pipeline raises
nothing — it answers normally — and its first collaborator call is the
Passage Index retrieval. -/
theorem query_no_input_validation_cex :
    (RAGQueryEngine.query engRetrEmptyC "   ").1 = Except.ok "General answer."
    ∧ (RAGQueryEngine.query engRetrEmptyC "   ").2.head? = some (CallEvent.retrieve "   ") :=
  ⟨rfl, rfl⟩

/-- C2 amended: only the web route validates, and only against the empty
string: `process_query` rejects `""` with a `BadRequestError` before
invoking the engine, while the engine's own `query` performs no validation
and calls the Passage Index first for every question, whitespace-only and
empty ones included. -/
theorem input_validation_amended (eng : RAGQueryEngine) (q : String) :
    (q = "" → process_query eng q = (Except.error (Err.badRequest "No query provided"), []))
    ∧ (RAGQueryEngine.query eng q).2.head? = some (CallEvent.retrieve q) := by
  constructor
  · rintro rfl
    rfl
  · exact query_trace_head eng q

/-- C2 amended witness: the route rejection at `""` and the engine's
retrieval-first trace at a concrete question. -/
theorem input_validation_amended_witness :
    process_query engRetrEmptyC "" = (Except.error (Err.badRequest "No query provided"), [])
    ∧ (RAGQueryEngine.query engRetrEmptyC "").2.head? = some (CallEvent.retrieve "") :=
  ⟨(input_validation_amended engRetrEmptyC "").1 rfl,
   (input_validation_amended engRetrEmptyC "").2⟩

/-- C5 counterexample: with the same always-answering gateway, a failing
retrieval and an empty retrieval produce different downstream gateway
calls — the catch-all's context-free fallback call versus the primary call
with the sentinel context — so the failure is not treated exactly as an
empty passage sequence. -/
theorem retrieval_failure_differs_from_empty_cex :
    (RAGQueryEngine.query engRetrFailC "What is NovaTech's password policy?").2 ≠
      (RAGQueryEngine.query engRetrEmptyC "What is NovaTech's password policy?").2
    ∧ (RAGQueryEngine.query engRetrFailC "What is NovaTech's password policy?").2 =
        [CallEvent.retrieve "What is NovaTech's password policy?",
         CallEvent.generate (RAGQueryEngine.fallback_request "What is NovaTech's password policy?")]
    ∧ (RAGQueryEngine.query engRetrEmptyC "What is NovaTech's password policy?").2 =
        [CallEvent.retrieve "What is NovaTech's password policy?",
         CallEvent.generate (RAGQueryEngine.primary_request
           RAGQueryEngine.default_system_prompt_template RAGQueryEngine.sentinel_context
           "What is NovaTech's password policy?")] := by
  refine ⟨?_, rfl, rfl⟩
  intro h
  have h1 : (RAGQueryEngine.query engRetrFailC "What is NovaTech's password policy?").2 =
      [CallEvent.retrieve "What is NovaTech's password policy?",
       CallEvent.generate (RAGQueryEngine.fallback_request "What is NovaTech's password policy?")] := rfl
  have h2 : (RAGQueryEngine.query engRetrEmptyC "What is NovaTech's password policy?").2 =
      [CallEvent.retrieve "What is NovaTech's password policy?",
       CallEvent.generate (RAGQueryEngine.primary_request
         RAGQueryEngine.default_system_prompt_template RAGQueryEngine.sentinel_context
         "What is NovaTech's password policy?")] := rfl
  rw [h1, h2] at h
  simp only [List.cons.injEq, CallEvent.generate.injEq, LLMRequest.mk.injEq,
    RAGQueryEngine.fallback_request, RAGQueryEngine.primary_request] at h
  exact Option.noConfusion h.2.1.2.2.1

/-- C5 amended: a retrieval failure never surfaces — the caller gets
whatever the one context-free fallback call produces — but it is handled by
the catch-all fallback path, not identically to zero retrieved passages,
which instead lead to the primary generation call with the sentinel
context. -/
theorem retrieval_failure_absorbed_amended (r r0 : Retriever) (llm : LLMService)
    (tmpl q : String) (e : Err)
    (hf : r q = Except.error e) (h0 : r0 q = Except.ok []) :
    RAGQueryEngine.query ⟨r, llm, tmpl⟩ q =
      (llm (RAGQueryEngine.fallback_request q),
       [CallEvent.retrieve q, CallEvent.generate (RAGQueryEngine.fallback_request q)])
    ∧ RAGQueryEngine.query_body ⟨r0, llm, tmpl⟩ q =
        (llm (RAGQueryEngine.primary_request tmpl RAGQueryEngine.sentinel_context q),
         [CallEvent.retrieve q, CallEvent.generate
           (RAGQueryEngine.primary_request tmpl RAGQueryEngine.sentinel_context q)]) := by
  constructor
  · have hb := query_body_retr_err ⟨r, llm, tmpl⟩ q e hf
    rw [query_of_body_err ⟨r, llm, tmpl⟩ q e [CallEvent.retrieve q] hb]
    rfl
  · exact query_body_assess_ok ⟨r0, llm, tmpl⟩ q [] false [] [] h0 (assess_empty llm q)

/-- C5 amended witness: the absorbed failure at a concrete failing
retriever and answering gateway. -/
theorem retrieval_failure_absorbed_amended_witness :
    RAGQueryEngine.query ⟨retrFailC, llmAnsC, RAGQueryEngine.default_system_prompt_template⟩ "q0" =
      (Except.ok "General answer.",
       [CallEvent.retrieve "q0", CallEvent.generate (RAGQueryEngine.fallback_request "q0")]) := by
  rw [(retrieval_failure_absorbed_amended retrFailC retrEmptyC llmAnsC
    RAGQueryEngine.default_system_prompt_template "q0"
    (Err.valueError "Failed to retrieve documents: boom") rfl rfl).1]
  rfl

/-- C6: if the primary context-aware call raises while the fallback call
succeeds, `query` returns the fallback's text; if both raise, the fallback's
error propagates; and an error result can only arise from a failed fallback
call — no other path surfaces an error. -/
theorem composer_fallback_policy (eng : RAGQueryEngine) (q : String) :
    (∀ docs b rdocs e t,
      eng.retriever q = Except.ok docs →
      (RAGQueryEngine.assess_document_relevance eng.llm_service q docs).1 = Except.ok (b, rdocs) →
      eng.llm_service (RAGQueryEngine.primary_request eng.system_prompt_template
        (RAGQueryEngine.prepare_context b rdocs) q) = Except.error e →
      eng.llm_service (RAGQueryEngine.fallback_request q) = Except.ok t →
      (RAGQueryEngine.query eng q).1 = Except.ok t)
    ∧ (∀ docs b rdocs e e2,
      eng.retriever q = Except.ok docs →
      (RAGQueryEngine.assess_document_relevance eng.llm_service q docs).1 = Except.ok (b, rdocs) →
      eng.llm_service (RAGQueryEngine.primary_request eng.system_prompt_template
        (RAGQueryEngine.prepare_context b rdocs) q) = Except.error e →
      eng.llm_service (RAGQueryEngine.fallback_request q) = Except.error e2 →
      (RAGQueryEngine.query eng q).1 = Except.error e2)
    ∧ (∀ e2, (RAGQueryEngine.query eng q).1 = Except.error e2 →
        eng.llm_service (RAGQueryEngine.fallback_request q) = Except.error e2) := by
  refine ⟨?_, ?_, ?_⟩
  · intro docs b rdocs e t hr ha hp hfb
    rcases hA : RAGQueryEngine.assess_document_relevance eng.llm_service q docs with ⟨res, calls⟩
    have hres : res = Except.ok (b, rdocs) := by rw [hA] at ha; exact ha
    subst hres
    have hb := query_body_assess_ok eng q docs b rdocs calls hr hA
    rw [hp] at hb
    rw [query_of_body_err eng q e _ hb]
    exact hfb
  · intro docs b rdocs e e2 hr ha hp hfb
    rcases hA : RAGQueryEngine.assess_document_relevance eng.llm_service q docs with ⟨res, calls⟩
    have hres : res = Except.ok (b, rdocs) := by rw [hA] at ha; exact ha
    subst hres
    have hb := query_body_assess_ok eng q docs b rdocs calls hr hA
    rw [hp] at hb
    rw [query_of_body_err eng q e _ hb]
    exact hfb
  · intro e2 h
    rcases hb : RAGQueryEngine.query_body eng q with ⟨res, calls⟩
    rcases res with err | r
    · rw [query_of_body_err eng q err calls hb] at h
      exact h
    · rw [query_of_body_ok eng q r calls hb] at h
      exact Except.noConfusion h

/-- C6 witness: primary fails and fallback succeeds at a concrete engine —
the fallback's text is returned; with both failing, its error surfaces. -/
theorem composer_fallback_policy_witness :
    (RAGQueryEngine.query engPrimaryFailC "q0").1 = Except.ok "FB"
    ∧ (RAGQueryEngine.query engBothFailC "q0").1 = Except.error errC :=
  ⟨(composer_fallback_policy engPrimaryFailC "q0").1 [docC] true [docC] errC "FB"
      rfl rfl rfl rfl,
   (composer_fallback_policy engBothFailC "q0").2.1 [docC] true [docC] errC errC
      rfl rfl rfl rfl⟩

/-- C9: whatever error the body of `query` raised — retrieval, assessment
or the primary generation call — the one catch-all handler reacts in the
same way, with the single fixed context-free fallback call; the reaction
does not depend on the error. -/
theorem catch_all_uniform_fallback (eng : RAGQueryEngine) (q : String) (e : Err)
    (calls : List CallEvent)
    (h : RAGQueryEngine.query_body eng q = (Except.error e, calls)) :
    RAGQueryEngine.query eng q =
      (eng.llm_service (RAGQueryEngine.fallback_request q),
       calls ++ [CallEvent.generate (RAGQueryEngine.fallback_request q)])
    ∧ (RAGQueryEngine.fallback_request q).system_prompt =
        "You are a helpful assistant. Please answer the following question based on your general knowledge." :=
  ⟨query_of_body_err eng q e calls h, rfl⟩

/-- C9 witness: the catch-all at a concrete failing retrieval. -/
theorem catch_all_uniform_fallback_witness :
    RAGQueryEngine.query engRetrFailC "What is the capital of France?" =
      (Except.ok "General answer.",
       [CallEvent.retrieve "What is the capital of France?"] ++
        [CallEvent.generate (RAGQueryEngine.fallback_request "What is the capital of France?")]) :=
  (catch_all_uniform_fallback engRetrFailC "What is the capital of France?"
    (Err.valueError "Failed to retrieve documents: boom")
    [CallEvent.retrieve "What is the capital of France?"] rfl).1
